import Mathlib

/-!
Verification development for the EcoFlux-Exchange matching core.

The Python sources under `Backend/src` are shallowly embedded: classes become
structures, methods become pure functions with explicit state passing, Python
floats become exact rationals, wall-clock timestamps become natural-number
parameters supplied by the caller, and the SHA-256 hex digest is a function
parameter (an arbitrary deterministic digest), since no claim depends on the
internals of SHA-256.  Python runtime errors reached by the code (TypeError,
AttributeError) are represented explicitly via `Except`.
-/

namespace EcoFlux

/-- Order side; the `order_type` strings `'buy'` / `'sell'` of the source. -/
inductive Side
  | buy
  | sell
deriving DecidableEq, Repr

/-- Transaction status strings of `models/transaction.py`. -/
inductive TxStatus
  | pending
  | matched
  | completed
  | cancelled
deriving DecidableEq, Repr

/-- The four energy categories, the keys of `OrderBook.books`. -/
inductive EnergyCat
  | solar
  | wind
  | hydro
  | biomass
deriving DecidableEq, Repr

/-- Python runtime errors that the embedded code can raise. -/
inductive PyError
  | typeError
  | attributeError
deriving DecidableEq, Repr

/-- `models/transaction.py`, class `Transaction`: one order record. -/
structure Transaction where
  id : String
  energy_type : String
  quantity : ℚ
  price : ℚ
  order_type : Side
  user_id : String
  status : TxStatus
  created_at : ℕ
  updated_at : ℕ
  matched_with : Option String
  contract_id : Option String
  execution_time : Option ℚ
deriving DecidableEq, Repr

/-- `Transaction.__init__`: `tid` stands for the generated uuid, `now` for
`datetime.utcnow()`. -/
def Transaction.make (energy_type : String) (quantity price : ℚ) (order_type : Side)
    (user_id : String) (tid : String) (status : TxStatus) (now : ℕ) : Transaction :=
  { id := tid
    energy_type := energy_type
    quantity := quantity
    price := price
    order_type := order_type
    user_id := user_id
    status := status
    created_at := now
    updated_at := now
    matched_with := none
    contract_id := none
    execution_time := none }

/-- `Transaction.update_status`. -/
def Transaction.update_status (t : Transaction) (newStatus : TxStatus) (now : ℕ) : Transaction :=
  { t with status := newStatus, updated_at := now }

/-- `Transaction.mark_matched`. -/
def Transaction.mark_matched (t : Transaction) (otherId : String) (now : ℕ) : Transaction :=
  { t with matched_with := some otherId, status := TxStatus.matched, updated_at := now }

/-- `Transaction.mark_completed`. -/
def Transaction.mark_completed (t : Transaction) (cid : String) (execTime : ℚ) (now : ℕ) :
    Transaction :=
  { t with contract_id := some cid, execution_time := some execTime,
           status := TxStatus.completed, updated_at := now }

/-- `Transaction.can_be_cancelled`: `status in ['pending', 'matched']`. -/
def Transaction.can_be_cancelled (t : Transaction) : Bool :=
  decide (t.status = TxStatus.pending ∨ t.status = TxStatus.matched)

/-- `services/transaction_service.py`: in-memory list of transactions. -/
structure TransactionService where
  transactions : List Transaction
deriving DecidableEq, Repr

/-- `TransactionService.__init__`: starts with an empty in-memory store. -/
def TransactionService.init : TransactionService := ⟨[]⟩

/-- `TransactionService.create_transaction`: builds a pending transaction and
appends it to the store. -/
def TransactionService.create_transaction (s : TransactionService) (energy_type : String)
    (quantity price : ℚ) (order_type : Side) (user_id : String) (tid : String) (now : ℕ) :
    Transaction × TransactionService :=
  let t := Transaction.make energy_type quantity price order_type user_id tid TxStatus.pending now
  (t, ⟨s.transactions ++ [t]⟩)

/-- `TransactionService.get_transaction_by_id`: first transaction with the id. -/
def TransactionService.get_transaction_by_id (s : TransactionService) (tid : String) :
    Option Transaction :=
  s.transactions.find? (fun t => t.id == tid)

/-- Replace the first list element whose id matches, mirroring in-place mutation
of the object returned by `get_transaction_by_id`. -/
def updateFirst (l : List Transaction) (tid : String) (f : Transaction → Transaction) :
    List Transaction :=
  match l with
  | [] => []
  | t :: rest => if t.id == tid then f t :: rest else t :: updateFirst rest tid f

/-- `TransactionService.cancel_transaction`: look the order up; if absent or not
cancellable return `False`; otherwise set its status to `'cancelled'`. -/
def TransactionService.cancel_transaction (s : TransactionService) (tid : String) (now : ℕ) :
    Bool × TransactionService :=
  match s.get_transaction_by_id tid with
  | none => (false, s)
  | some t =>
    if t.can_be_cancelled then
      (true, ⟨updateFirst s.transactions tid (fun u => u.update_status TxStatus.cancelled now)⟩)
    else (false, s)

/-- `TransactionService.get_pending_orders`: pending transactions, optionally
filtered by energy type. -/
def TransactionService.get_pending_orders (s : TransactionService) (energy_type : Option String) :
    List Transaction :=
  let pending := s.transactions.filter (fun t => decide (t.status = TxStatus.pending))
  match energy_type with
  | none => pending
  | some e => pending.filter (fun t => t.energy_type == e)

/-- Python `round(x, 2)` on exact values: round half to even at two decimals. -/
def bankersRound (q : ℚ) : ℤ :=
  let n := ⌊q⌋
  let f := q - n
  if f < 1/2 then n
  else if 1/2 < f then n + 1
  else if n % 2 = 0 then n else n + 1

/-- Round a rational to two decimal places the way `round(x, 2)` does. -/
def round2 (q : ℚ) : ℚ := (bankersRound (q * 100) : ℚ) / 100

/-- Result record of `TransactionService.get_statistics`. -/
structure TxStatistics where
  total_transactions : ℕ
  pending : ℕ
  matched : ℕ
  completed : ℕ
  cancelled : ℕ
  total_volume_kwh : ℚ
  average_execution_time_seconds : ℚ
  success_rate_percentage : ℚ
deriving DecidableEq, Repr

/-- Number of stored transactions with the given status. -/
def TransactionService.countStatus (s : TransactionService) (st : TxStatus) : ℕ :=
  (s.transactions.filter (fun t => decide (t.status = st))).length

/-- `TransactionService.get_statistics`: counters over the store; the success
rate is `completed / total * 100` over ALL stored transactions. -/
def TransactionService.get_statistics (s : TransactionService) : TxStatistics :=
  let total := s.transactions.length
  let completed := s.countStatus TxStatus.completed
  let total_volume :=
    ((s.transactions.filter (fun t => decide (t.status = TxStatus.completed))).map
      (fun t => t.quantity)).sum
  let execution_times := s.transactions.filterMap (fun t => t.execution_time)
  let avg := if execution_times.length = 0 then 0 else execution_times.sum / execution_times.length
  let success : ℚ := if 0 < total then (completed : ℚ) / (total : ℚ) * 100 else 0
  { total_transactions := total
    pending := s.countStatus TxStatus.pending
    matched := s.countStatus TxStatus.matched
    completed := completed
    cancelled := s.countStatus TxStatus.cancelled
    total_volume_kwh := total_volume
    average_execution_time_seconds := round2 avg
    success_rate_percentage := round2 success }

/-- Modelled from the spec (comparison definition for the success-rate claim):
`completed / (completed + failed + cancelled-after-match)` as a percentage.
Transactions in the source have no `failed` status, so that count is zero;
`cancelled-after-match` is a cancelled transaction whose `matched_with` is set. -/
def specSuccessRate (s : TransactionService) : ℚ :=
  let completed := s.countStatus TxStatus.completed
  let cancelledAfterMatch :=
    (s.transactions.filter
      (fun t => decide (t.status = TxStatus.cancelled ∧ t.matched_with ≠ none))).length
  let denom := completed + cancelledAfterMatch
  if denom = 0 then 0 else (completed : ℚ) / (denom : ℚ) * 100

/-! ## Order matcher (`services/matching_engine/order_matcher.py`) -/

/-- Sort key order used for candidates of an incoming buy:
`compatible.sort(key=lambda x: (x.price, x.created_at))`. -/
abbrev buyCandLe (a b : Transaction) : Prop :=
  a.price < b.price ∨ (a.price = b.price ∧ a.created_at ≤ b.created_at)

/-- Sort key order used for candidates of an incoming sell:
`compatible.sort(key=lambda x: (-x.price, x.created_at))`. -/
abbrev sellCandLe (a b : Transaction) : Prop :=
  b.price < a.price ∨ (a.price = b.price ∧ a.created_at ≤ b.created_at)

/-- `OrderMatcher._find_best_match`: filters candidates by price compatibility,
sorts them by price-time priority, and returns the whole sorted list (the
source ends with `return compatible if compatible else None`, without taking
the head element). -/
def find_best_match (order : Transaction) (candidates : List Transaction) :
    Option (List Transaction) :=
  if candidates.isEmpty then none
  else
    let compatible :=
      if order.order_type = Side.buy then
        List.insertionSort buyCandLe
          (candidates.filter (fun c => decide (c.price ≤ order.price)))
      else
        List.insertionSort sellCandLe
          (candidates.filter (fun c => decide (order.price ≤ c.price)))
    if compatible.isEmpty then none else some compatible

/-- `OrderMatcher.match_order`: the method constructs a FRESH
`TransactionService()` (whose in-memory store is empty) and reads pending
orders from it.  If a best match is found, `_execute_match(new_order,
best_match)` receives the list returned by `_find_best_match` and its first
attribute access on that list (`order2.order_type`) raises `AttributeError`. -/
def match_order (newOrder : Transaction) : Except PyError Bool :=
  let ts := TransactionService.init
  let opposite := if newOrder.order_type = Side.buy then Side.sell else Side.buy
  let pending :=
    (ts.get_pending_orders (some newOrder.energy_type)).filter
      (fun t => decide (t.order_type = opposite))
  if pending.isEmpty then Except.ok false
  else
    match find_best_match newOrder pending with
    | none => Except.ok false
    | some _ => Except.error PyError.attributeError

/-! ## Order book (`services/matching_engine/order.py`) -/

/-- Entry stored in a book list by `OrderBook.add_order`. -/
structure BookEntry where
  id : String
  price : ℚ
  quantity : ℚ
  user_id : String
  timestamp : ℕ
deriving DecidableEq, Repr

/-- Sort key order of `_sort_book` for the buy side:
`key=lambda x: (-x['price'], x['timestamp'])`, ascending. -/
abbrev buyEntryLe (a b : BookEntry) : Prop :=
  b.price < a.price ∨ (a.price = b.price ∧ a.timestamp ≤ b.timestamp)

/-- Sort key order of `_sort_book` for the sell side:
`key=lambda x: (x['price'], x['timestamp'])`, ascending. -/
abbrev sellEntryLe (a b : BookEntry) : Prop :=
  a.price < b.price ∨ (a.price = b.price ∧ a.timestamp ≤ b.timestamp)

/-- `OrderBook._sort_book` on one side. -/
def sort_book (side : Side) (l : List BookEntry) : List BookEntry :=
  match side with
  | Side.buy => List.insertionSort buyEntryLe l
  | Side.sell => List.insertionSort sellEntryLe l

/-- Categories recognized by `OrderBook.__init__`; any other string is
rejected by `energy_type not in self.books`. -/
def parseCat : String → Option EnergyCat
  | "solar" => some EnergyCat.solar
  | "wind" => some EnergyCat.wind
  | "hydro" => some EnergyCat.hydro
  | "biomass" => some EnergyCat.biomass
  | _ => none

/-- The per-category, per-side book lists of `OrderBook`. -/
structure OrderBook where
  books : EnergyCat → Side → List BookEntry

/-- `OrderBook.__init__`: all eight lists empty. -/
def OrderBook.init : OrderBook := ⟨fun _ _ => []⟩

/-- Update one (category, side) slot of the books map. -/
def updateBooks (f : EnergyCat → Side → List BookEntry) (c : EnergyCat) (s : Side)
    (l : List BookEntry) : EnergyCat → Side → List BookEntry :=
  fun c' s' => if c' = c ∧ s' = s then l else f c' s'

/-- The dictionary handed to `OrderBook.add_order`. -/
structure OrderInfo where
  id : String
  energy_type : String
  order_type : Side
  price : ℚ
  quantity : ℚ
  user_id : String
deriving DecidableEq, Repr

/-- `OrderBook.add_order`: reject unknown categories, append an entry
timestamped at insertion, and re-sort that side. -/
def OrderBook.add_order (ob : OrderBook) (o : OrderInfo) (now : ℕ) : Bool × OrderBook :=
  match parseCat o.energy_type with
  | none => (false, ob)
  | some c =>
    let entry : BookEntry := ⟨o.id, o.price, o.quantity, o.user_id, now⟩
    let newList := sort_book o.order_type (ob.books c o.order_type ++ [entry])
    (true, ⟨updateBooks ob.books c o.order_type newList⟩)

/-- `OrderBook.remove_order`: filter the id out; report whether the list
shrank. -/
def OrderBook.remove_order (ob : OrderBook) (energy_type : String) (side : Side)
    (oid : String) : Bool × OrderBook :=
  match parseCat energy_type with
  | none => (false, ob)
  | some c =>
    let old := ob.books c side
    let newList := old.filter (fun e => decide (e.id ≠ oid))
    (decide (newList.length < old.length), ⟨updateBooks ob.books c side newList⟩)

/-- The dictionary returned by `OrderBook.get_best_bid_ask` when it returns. -/
structure BidAskView where
  best_bid : Option ℚ
  best_ask : Option ℚ
  spread : Option ℚ
  mid_price : Option ℚ
deriving DecidableEq, Repr

/-- `OrderBook.get_best_bid_ask`: for a known category the source evaluates
`buy_orders['price'] if buy_orders else None` where `buy_orders` is a LIST;
indexing a list with the string key raises `TypeError` whenever that side is
non-empty (same for the sell side).  Only the empty-empty case returns. -/
def OrderBook.get_best_bid_ask (ob : OrderBook) (energy_type : String) :
    Except PyError (Option BidAskView) :=
  match parseCat energy_type with
  | none => Except.ok none
  | some c =>
    let buys := ob.books c Side.buy
    let sells := ob.books c Side.sell
    if ¬ buys.isEmpty then Except.error PyError.typeError
    else if ¬ sells.isEmpty then Except.error PyError.typeError
    else Except.ok (some ⟨none, none, none, none⟩)

/-! ## Smart contract model (`models/smart_contract.py`)

The SHA-256 hex digest is modelled by a digest parameter `H : String → String`;
every theorem below holds for an arbitrary deterministic digest. -/

/-- Contract status strings. -/
inductive CStatus
  | pending
  | active
  | completed
  | failed
deriving DecidableEq, Repr

/-- Verification status strings of a contract. -/
inductive VStatus
  | unverified
  | verified
  | failed
deriving DecidableEq, Repr

/-- The f-string hashed by `SmartContract._generate_hash`:
`f"{buyer_id}{seller_id}{energy_type}{quantity}{price}{created_at}"`. -/
def hashInput (buyer_id seller_id energy_type : String) (quantity price : ℚ)
    (created_at : ℕ) : String :=
  buyer_id ++ seller_id ++ energy_type ++ toString quantity ++ toString price
    ++ toString created_at

/-- `models/smart_contract.py`, class `SmartContract`. -/
structure SmartContract where
  id : String
  buyer_id : String
  seller_id : String
  energy_type : String
  quantity : ℚ
  price : ℚ
  total_value : ℚ
  status : CStatus
  created_at : ℕ
  deployed_at : Option ℕ
  executed_at : Option ℕ
  transaction_hash : String
  verification_status : VStatus
  execution_time : Option ℚ
  gas_used : ℚ
  failure_reason : Option String
deriving DecidableEq, Repr

/-- `SmartContract.__init__`: `freshId` stands for the generated uuid, `now`
for `datetime.utcnow()`; the stored hash is computed from the defining fields
at the end of construction. -/
def SmartContract.make (H : String → String) (buyer_id seller_id energy_type : String)
    (quantity price : ℚ) (contract_id : Option String) (freshId : String)
    (status : CStatus) (created_at : Option ℕ) (now : ℕ) : SmartContract :=
  let created := created_at.getD now
  { id := contract_id.getD freshId
    buyer_id := buyer_id
    seller_id := seller_id
    energy_type := energy_type
    quantity := quantity
    price := price
    total_value := quantity * price
    status := status
    created_at := created
    deployed_at := none
    executed_at := none
    transaction_hash := H (hashInput buyer_id seller_id energy_type quantity price created)
    verification_status := VStatus.unverified
    execution_time := none
    gas_used := 0
    failure_reason := none }

/-- `SmartContract.deploy`: set `active`, stamp `deployed_at`, return the hash. -/
def SmartContract.deploy (c : SmartContract) (now : ℕ) : String × SmartContract :=
  (c.transaction_hash, { c with status := CStatus.active, deployed_at := some now })

/-- `SmartContract.execute`: set `completed`, stamp times, draw gas (the random
draw is a parameter here). -/
def SmartContract.execute (c : SmartContract) (now : ℕ) (execTime gas : ℚ) : SmartContract :=
  { c with status := CStatus.completed, executed_at := some now,
           execution_time := some execTime, gas_used := gas }

/-- `SmartContract.verify`: verified only from the `completed` status. -/
def SmartContract.verify (c : SmartContract) : Bool × SmartContract :=
  if c.status = CStatus.completed then
    (true, { c with verification_status := VStatus.verified })
  else (false, c)

/-- `SmartContract.fail`: set `failed` and record the reason. -/
def SmartContract.fail (c : SmartContract) (reason : String) : SmartContract :=
  { c with status := CStatus.failed, failure_reason := some reason }

/-- The dictionary produced by `SmartContract.to_dict` (timestamps kept as
numbers; `failure_reason` is not serialized by the source). -/
structure ContractDict where
  id : String
  buyer_id : String
  seller_id : String
  energy_type : String
  quantity : ℚ
  price : ℚ
  total_value : ℚ
  status : CStatus
  created_at : ℕ
  deployed_at : Option ℕ
  executed_at : Option ℕ
  transaction_hash : String
  verification_status : VStatus
  execution_time : Option ℚ
  gas_used : ℚ
deriving DecidableEq, Repr

/-- `SmartContract.to_dict`. -/
def SmartContract.to_dict (c : SmartContract) : ContractDict :=
  { id := c.id
    buyer_id := c.buyer_id
    seller_id := c.seller_id
    energy_type := c.energy_type
    quantity := c.quantity
    price := c.price
    total_value := c.total_value
    status := c.status
    created_at := c.created_at
    deployed_at := c.deployed_at
    executed_at := c.executed_at
    transaction_hash := c.transaction_hash
    verification_status := c.verification_status
    execution_time := c.execution_time
    gas_used := c.gas_used }

/-- `SmartContract.from_dict`: constructs through `__init__` (which recomputes
a hash from a fresh `created_at = now`) and then overwrites `created_at`,
the nullable timestamps, the stored hash and the remaining fields from the
dictionary, exactly as the source does. -/
def SmartContract.from_dict (H : String → String) (d : ContractDict) (freshId : String)
    (now : ℕ) : SmartContract :=
  let c := SmartContract.make H d.buyer_id d.seller_id d.energy_type d.quantity d.price
    (some d.id) freshId d.status none now
  { c with created_at := d.created_at
           deployed_at := d.deployed_at
           executed_at := d.executed_at
           transaction_hash := d.transaction_hash
           verification_status := d.verification_status
           execution_time := d.execution_time
           gas_used := d.gas_used }

/-- Hash stability predicate: the stored hash is the digest of the defining
fields of the contract, as `_generate_hash` computes it. -/
def SmartContract.hashOK (H : String → String) (c : SmartContract) : Prop :=
  c.transaction_hash =
    H (hashInput c.buyer_id c.seller_id c.energy_type c.quantity c.price c.created_at)

/-! ## Verification service (`services/blockchain/verified.py`)

Python strings of this module are modelled as `List Char` so that the prefix
check of `_verify_hash_integrity` can be reasoned about; the digest is again a
parameter. -/

/-- Python string for the verification module. -/
abbrev PyStr := List Char

/-- The stored record of `verified_contracts[contract_id]` (the fields the
claims touch; the wall-clock `verification_time` is not represented). -/
structure VerRecord where
  transaction_hash : PyStr
  verified : Bool
  confirmations : ℕ
deriving DecidableEq, Repr

/-- `services/blockchain/verified.py`, class `VerificationService`.  Python
dictionaries are modelled as association lists where assignment conses at the
head and lookup takes the first hit. -/
structure VerificationService where
  verified_contracts : List (PyStr × VerRecord)
  verification_cache : List (PyStr × Bool)
deriving DecidableEq, Repr

/-- `VerificationService.__init__`. -/
def VerificationService.init : VerificationService := ⟨[], []⟩

/-- The cache key `f"{contract_id}:{transaction_hash}"`. -/
def vKey (cid th : PyStr) : PyStr := cid ++ ':' :: th

/-- `VerificationService._verify_hash_integrity`: compare the first 4 hex
characters of the submitted hash with
`hashlib.sha256(contract_id.encode()).hexdigest()[:8][:4]`. -/
def verify_hash_integrity (digest : PyStr → PyStr) (cid th : PyStr) : Bool :=
  (((digest cid).take 8).take 4).isPrefixOf th

/-- `VerificationService.verify`: answer from the cache when the key is
present; otherwise evaluate the integrity check, record the result and cache
it. -/
def VerificationService.verify (digest : PyStr → PyStr) (s : VerificationService)
    (cid th : PyStr) : Bool × VerificationService :=
  match s.verification_cache.lookup (vKey cid th) with
  | some b => (b, s)
  | none =>
    let isValid := verify_hash_integrity digest cid th
    (isValid,
      { verified_contracts :=
          (cid, ⟨th, isValid, if isValid then 12 else 0⟩) :: s.verified_contracts
        verification_cache := (vKey cid th, isValid) :: s.verification_cache })

/-- `VerificationService.batch_verify`: for each id, derive the submitted hash
as the digest of the id itself, verify, and collect `(id, verified)` results
in input order. -/
def VerificationService.batch_verify (digest : PyStr → PyStr) (s : VerificationService) :
    List PyStr → List (PyStr × Bool) × VerificationService
  | [] => ([], s)
  | cid :: rest =>
    let r := VerificationService.verify digest s cid (digest cid)
    let rr := VerificationService.batch_verify digest r.2 rest
    ((cid, r.1) :: rr.1, rr.2)

/-! ## Concrete scenario inputs (literal values of the spec scenarios) -/

/-- S1 resting order: `sell(solar, 100, 0.10, u2)`, admitted at t=1. -/
def s1Sell : Transaction :=
  Transaction.make "solar" 100 (10/100) Side.sell "u2" "oS" TxStatus.pending 1

/-- S1 incoming order: `buy(solar, 100, 0.12, u1)`, admitted at t=2. -/
def s1Buy : Transaction :=
  Transaction.make "solar" 100 (12/100) Side.buy "u1" "oB" TxStatus.pending 2

/-- The S1 submission sequence as the trade route runs it: each submission is
admitted to the route-level service and then handed to `match_order`, which
reads pending orders from its own freshly constructed service. -/
def s1Run : Except PyError Bool × Except PyError Bool × TransactionService :=
  let p1 := TransactionService.init.create_transaction "solar" 100 (10/100) Side.sell "u2" "oS" 1
  let m1 := match_order p1.1
  let p2 := p1.2.create_transaction "solar" 100 (12/100) Side.buy "u1" "oB" 2
  let m2 := match_order p2.1
  (m1, m2, p2.2)

/-- S4: `sell(biomass, 50, 0.15, uA)` admitted at t=1. -/
def c2SellA : Transaction :=
  Transaction.make "biomass" 50 (15/100) Side.sell "uA" "tA" TxStatus.pending 1

/-- S4: `sell(biomass, 50, 0.15, uB)` admitted at t=2. -/
def c2SellB : Transaction :=
  Transaction.make "biomass" 50 (15/100) Side.sell "uB" "tB" TxStatus.pending 2

/-- S4: incoming `buy(biomass, 50, 0.16, uC)` admitted at t=3. -/
def c2Buy : Transaction :=
  Transaction.make "biomass" 50 (16/100) Side.buy "uC" "tC" TxStatus.pending 3

/-- S3: resting `sell(hydro, 200, 0.08, u2)`. -/
def c3Sell : Transaction :=
  Transaction.make "hydro" 200 (8/100) Side.sell "u2" "tS" TxStatus.pending 1

/-- S3: incoming `buy(hydro, 100, 0.09, u1)`. -/
def c3Buy : Transaction :=
  Transaction.make "hydro" 100 (9/100) Side.buy "u1" "tB" TxStatus.pending 2

/-- A matched buy order, counterpart of `c4T2`. -/
def c4T1 : Transaction :=
  (Transaction.make "solar" 100 (12/100) Side.buy "u1" "t1" TxStatus.pending 1).mark_matched "t2" 3

/-- A matched sell order, counterpart of `c4T1`. -/
def c4T2 : Transaction :=
  (Transaction.make "solar" 100 (11/100) Side.sell "u2" "t2" TxStatus.pending 2).mark_matched "t1" 3

/-- A registry holding the matched pair `c4T1`, `c4T2`. -/
def c4Service : TransactionService := ⟨[c4T1, c4T2]⟩

/-- The order book built by the unit test `test_best_bid_ask` of the repo: one
buy and one sell resting in the hydro book. -/
def c5Book : OrderBook :=
  ((OrderBook.init.add_order ⟨"order-3", "hydro", Side.buy, 8/100, 100, "user-1"⟩ 1).2.add_order
    ⟨"order-4", "hydro", Side.sell, 9/100, 100, "user-2"⟩ 2).2

/-- One completed transaction (with an execution time recorded). -/
def c6Completed : Transaction :=
  (Transaction.make "solar" 100 (12/100) Side.buy "u1" "t1" TxStatus.pending 1).mark_completed
    "c1" (5/2) 2

/-- One transaction still resting. -/
def c6Pending : Transaction :=
  Transaction.make "wind" 150 (1/10) Side.sell "u2" "t2" TxStatus.pending 1

/-- A registry with one completed and one pending transaction. -/
def c6Service : TransactionService := ⟨[c6Completed, c6Pending]⟩

/-! ## Claim-level predicates -/

/-- The strict priority relation of the book invariant: X strictly better
priced than Y (higher for buy, lower for sell), or equal price and strictly
earlier timestamp. -/
def strictBetter (side : Side) (a b : BookEntry) : Prop :=
  match side with
  | Side.buy => b.price < a.price ∨ (a.price = b.price ∧ a.timestamp < b.timestamp)
  | Side.sell => a.price < b.price ∨ (a.price = b.price ∧ a.timestamp < b.timestamp)

/-- A book list ordered under strict price-time priority. -/
def StrictPriority (side : Side) (l : List BookEntry) : Prop :=
  l.Pairwise (strictBetter side)

/-- All timestamps in a book list are pairwise distinct (the monotonic-clock
assumption of the spec). -/
def DistinctTimestamps (l : List BookEntry) : Prop :=
  l.Pairwise (fun a b => a.timestamp ≠ b.timestamp)

/-- Every (category, side) list of the book satisfies strict priority. -/
def BookInvariant (ob : OrderBook) : Prop :=
  ∀ c s, StrictPriority s (ob.books c s)

/-- Every (category, side) list has pairwise distinct timestamps. -/
def BookDistinct (ob : OrderBook) : Prop :=
  ∀ c s, DistinctTimestamps (ob.books c s)

/-- The insertion time `now` is newer than every timestamp in the book. -/
def FreshTime (ob : OrderBook) (now : ℕ) : Prop :=
  ∀ c s, ∀ e ∈ ob.books c s, e.timestamp ≠ now

/-- Every value stored in the verification cache is `true`. -/
def CacheAllTrue (s : VerificationService) : Prop :=
  ∀ k b, s.verification_cache.lookup k = some b → b = true

/-! ## Order instances for the book sort relations -/

instance : IsTotal BookEntry buyEntryLe :=
  ⟨by
    intro a b
    rcases lt_trichotomy a.price b.price with h | h | h
    · right; left; exact h
    · rcases Nat.le_total a.timestamp b.timestamp with ht | ht
      · left; right; exact ⟨h, ht⟩
      · right; right; exact ⟨h.symm, ht⟩
    · left; left; exact h⟩

instance : IsTrans BookEntry buyEntryLe :=
  ⟨by
    intro a b c hab hbc
    rcases hab with h1 | ⟨e1, t1⟩ <;> rcases hbc with h2 | ⟨e2, t2⟩
    · left; exact h2.trans h1
    · left; exact e2 ▸ h1
    · left; exact lt_of_lt_of_eq h2 e1.symm
    · right; exact ⟨e1.trans e2, t1.trans t2⟩⟩

instance : IsTotal BookEntry sellEntryLe :=
  ⟨by
    intro a b
    rcases lt_trichotomy a.price b.price with h | h | h
    · left; left; exact h
    · rcases Nat.le_total a.timestamp b.timestamp with ht | ht
      · left; right; exact ⟨h, ht⟩
      · right; right; exact ⟨h.symm, ht⟩
    · right; left; exact h⟩

instance : IsTrans BookEntry sellEntryLe :=
  ⟨by
    intro a b c hab hbc
    rcases hab with h1 | ⟨e1, t1⟩ <;> rcases hbc with h2 | ⟨e2, t2⟩
    · left; exact h1.trans h2
    · left; exact lt_of_lt_of_eq h1 e2
    · left; exact e1 ▸ h2
    · right; exact ⟨e1.trans e2, t1.trans t2⟩⟩

/-! ## Theorems -/

/-- C1: scenario S1 run against the code. `match_order` reads pending orders
from a freshly constructed (empty) `TransactionService`, so the second
submission does NOT match: both calls return `ok false`, no contract is
created, and both orders stay resting with status pending — contradicting the
claimed immediate cross at price 0.11. -/
theorem s1_immediate_cross_fails_in_code :
    s1Run.1 = Except.ok false ∧ s1Run.2.1 = Except.ok false ∧
      s1Run.2.2.transactions.map Transaction.status = [TxStatus.pending, TxStatus.pending] :=
  ⟨rfl, rfl, rfl⟩

/-- C2: on the S4 inputs, `_find_best_match` returns the WHOLE sorted
compatible list `[uA, uB]` rather than designating the single best resting
order; `_execute_match` then treats that list as one order and raises
`AttributeError`. -/
theorem find_best_match_returns_whole_list :
    find_best_match c2Buy [c2SellA, c2SellB] = some [c2SellA, c2SellB] := by
  norm_num [find_best_match, c2Buy, c2SellA, c2SellB, Transaction.make, List.filter_cons,
    List.filter_nil, List.insertionSort, List.orderedInsert, buyCandLe]

/-- C3 counterexample: with resting `sell(hydro, 200, 0.08)` and incoming
`buy(hydro, 100, 0.09)`, the quantities differ and yet the matching pass
designates the resting order as compatible — quantities are never compared,
so the claimed whole-order policy does not hold in the matching logic. -/
theorem quantity_mismatch_still_designates :
    find_best_match c3Buy [c3Sell] = some [c3Sell] ∧ c3Buy.quantity ≠ c3Sell.quantity := by
  constructor
  · norm_num [find_best_match, c3Buy, c3Sell, Transaction.make, List.filter_cons,
      List.filter_nil, List.insertionSort, List.orderedInsert, buyCandLe]
  · norm_num [c3Buy, c3Sell, Transaction.make]

/-- C4 counterexample: cancelling one side of the matched pair succeeds and
leaves the counterparty in status `matched` — it is neither reverted to
pending nor reinserted anywhere, and no contract state is consulted. -/
theorem cancel_matched_ignores_counterparty :
    (c4Service.cancel_transaction "t1" 5).1 = true ∧
      ((c4Service.cancel_transaction "t1" 5).2.get_transaction_by_id "t2").map
        Transaction.status = some TxStatus.matched :=
  ⟨rfl, rfl⟩

/-- C5: on the book built by the unit test `test_best_bid_ask` (one resting
buy and one resting sell in hydro), `get_best_bid_ask` raises `TypeError`
because the source indexes a Python list with the string key `'price'` —
the lookup is not total on non-empty sides. -/
theorem get_best_bid_ask_raises_on_nonempty :
    c5Book.get_best_bid_ask "hydro" = Except.error PyError.typeError := rfl

/-- C6 counterexample: with one completed and one pending transaction the
code reports a success rate of 50 (denominator = all submissions), while the
claimed formula `completed / (completed + failed + cancelled-after-match)`
yields 100. -/
theorem success_rate_formula_mismatch :
    (c6Service.get_statistics).success_rate_percentage ≠ specSuccessRate c6Service ∧
      (c6Service.get_statistics).success_rate_percentage = 50 ∧
      specSuccessRate c6Service = 100 := by
  have hL : (c6Service.get_statistics).success_rate_percentage = 50 := by
    simp [TransactionService.get_statistics, TransactionService.countStatus,
      c6Service, c6Completed, c6Pending, Transaction.make, Transaction.mark_completed,
      Transaction.update_status, List.filter_cons, List.filter_nil, List.filterMap]
    norm_num [round2, bankersRound]
  have hR : specSuccessRate c6Service = 100 := by
    simp [specSuccessRate, TransactionService.countStatus, c6Service, c6Completed,
      c6Pending, Transaction.make, Transaction.mark_completed, Transaction.update_status,
      List.filter_cons, List.filter_nil]
  refine ⟨?_, hL, hR⟩
  rw [hL, hR]
  norm_num

/-- C3 amended claim: the matching pass never compares quantities — whenever
the resting candidate is price-compatible with the incoming order it is
designated as the compatible match set and the match path proceeds, whatever
the two quantities are. -/
theorem find_best_match_ignores_quantity (order cand : Transaction)
    (h : (order.order_type = Side.buy ∧ cand.price ≤ order.price) ∨
         (order.order_type = Side.sell ∧ order.price ≤ cand.price)) :
    find_best_match order [cand] = some [cand] := by
  unfold find_best_match
  rcases h with ⟨hb, hp⟩ | ⟨hs, hp⟩
  · simp [hb, hp, List.insertionSort, List.orderedInsert, List.filter_cons, List.filter_nil]
  · simp [hs, hp, List.insertionSort, List.orderedInsert, List.filter_cons, List.filter_nil]

/-- Witness for the amended C3 claim at the S3 inputs (quantities 100 vs
200). -/
theorem find_best_match_ignores_quantity_witness :
    find_best_match c3Buy [c3Sell] = some [c3Sell] :=
  find_best_match_ignores_quantity c3Buy c3Sell
    (Or.inl ⟨rfl, by norm_num [c3Buy, c3Sell, Transaction.make]⟩)

/-- Each element of `updateFirst l tid f` is the corresponding element of
`l`, transformed by `f` exactly when it carries id `tid` (first hit). -/
theorem updateFirst_forall2 (tid : String) (f : Transaction → Transaction) :
    ∀ l : List Transaction,
      List.Forall₂ (fun old new => new = old ∨ (old.id = tid ∧ new = f old)) l
        (updateFirst l tid f)
  | [] => List.Forall₂.nil
  | t :: rest => by
    unfold updateFirst
    by_cases h : (t.id == tid) = true
    · rw [if_pos h]
      exact List.Forall₂.cons (Or.inr ⟨by simpa using h, rfl⟩)
        (List.forall₂_same.mpr (fun x _ => Or.inl rfl))
    · rw [if_neg h]
      exact List.Forall₂.cons (Or.inl rfl) (updateFirst_forall2 tid f rest)

/-- C4 amended claim: `cancel_transaction` succeeds exactly when the order
exists with status pending or matched — no contract state is consulted — and
it changes nothing but that order's record (status to cancelled, `updated_at`
refreshed); in particular the counterparty of a matched pair keeps its
`matched` status and is not reinserted into any book. -/
theorem cancel_transaction_behavior (s : TransactionService) (tid : String) (now : ℕ) :
    ((s.cancel_transaction tid now).1 = true ↔
        ∃ t, s.get_transaction_by_id tid = some t ∧
          (t.status = TxStatus.pending ∨ t.status = TxStatus.matched)) ∧
      List.Forall₂ (fun old new => new = old ∨
          (old.id = tid ∧ new = old.update_status TxStatus.cancelled now))
        s.transactions (s.cancel_transaction tid now).2.transactions := by
  unfold TransactionService.cancel_transaction
  cases h : s.get_transaction_by_id tid with
  | none =>
    refine ⟨by simp, ?_⟩
    exact List.forall₂_same.mpr (fun x _ => Or.inl rfl)
  | some t =>
    by_cases hc : t.can_be_cancelled = true
    · simp only [hc, if_true]
      constructor
      · constructor
        · intro _
          exact ⟨t, rfl, by simpa [Transaction.can_be_cancelled] using hc⟩
        · intro _
          trivial
      · exact updateFirst_forall2 tid _ s.transactions
    · have hc2 : t.can_be_cancelled = false := by
        cases hcb : t.can_be_cancelled
        · rfl
        · exact absurd hcb hc
      simp only [hc2, if_false]
      constructor
      · constructor
        · intro hf
          exact absurd hf (by simp)
        · rintro ⟨t', ht', hst⟩
          injection ht' with hte
          subst hte
          exact absurd (decide_eq_true hst) hc
      · exact List.forall₂_same.mpr (fun x _ => Or.inl rfl)

/-- The store size is the sum of the four per-status counts (statuses form a
closed enumeration). -/
theorem length_eq_status_counts (l : List Transaction) :
    l.length =
      (l.filter (fun t => decide (t.status = TxStatus.pending))).length +
        (l.filter (fun t => decide (t.status = TxStatus.matched))).length +
        (l.filter (fun t => decide (t.status = TxStatus.completed))).length +
        (l.filter (fun t => decide (t.status = TxStatus.cancelled))).length := by
  induction l with
  | nil => rfl
  | cons t rest ih =>
    cases h : t.status <;>
      simp [List.filter_cons, h, List.length_cons, ih] <;> omega

/-- C6 amended claim: the reported success rate is `completed / total × 100`
(rounded to two decimals) where the denominator counts EVERY stored
transaction — pending, matched, completed and cancelled alike — and it is 0
when the store is empty; orders that never reached a match are counted in
the denominator. -/
theorem success_rate_counts_all_submissions (s : TransactionService) :
    (s.get_statistics).success_rate_percentage =
      if s.transactions.length = 0 then 0
      else
        round2 ((s.countStatus TxStatus.completed : ℚ) /
          ((s.countStatus TxStatus.pending + s.countStatus TxStatus.matched +
              s.countStatus TxStatus.completed + s.countStatus TxStatus.cancelled : ℕ) : ℚ)
          * 100) := by
  unfold TransactionService.get_statistics
  by_cases h : s.transactions.length = 0
  · simp [h]
    norm_num [round2, bankersRound]
  · rw [if_neg h]
    have hpos : 0 < s.transactions.length := Nat.pos_of_ne_zero h
    simp only [hpos, if_true]
    have hl := length_eq_status_counts s.transactions
    simp only [TransactionService.countStatus]
    rw [← hl]

/-- Sorting one side with the `_sort_book` key yields strict price-time
priority, provided all timestamps in the list are pairwise distinct. -/
theorem sort_book_strict (side : Side) (l : List BookEntry) (hd : DistinctTimestamps l) :
    StrictPriority side (sort_book side l) := by
  cases side with
  | buy =>
    have hs := List.sorted_insertionSort buyEntryLe l
    have hperm := List.perm_insertionSort buyEntryLe l
    have hne : (List.insertionSort buyEntryLe l).Pairwise
        (fun a b => a.timestamp ≠ b.timestamp) :=
      (hperm.pairwise_iff (fun hab => fun e => hab e.symm)).mpr hd
    refine (hs.and hne).imp ?_
    intro a b hab
    rcases hab with ⟨hle | ⟨he, hle⟩, hne2⟩
    · exact Or.inl hle
    · exact Or.inr ⟨he, lt_of_le_of_ne hle hne2⟩
  | sell =>
    have hs := List.sorted_insertionSort sellEntryLe l
    have hperm := List.perm_insertionSort sellEntryLe l
    have hne : (List.insertionSort sellEntryLe l).Pairwise
        (fun a b => a.timestamp ≠ b.timestamp) :=
      (hperm.pairwise_iff (fun hab => fun e => hab e.symm)).mpr hd
    refine (hs.and hne).imp ?_
    intro a b hab
    rcases hab with ⟨hle | ⟨he, hle⟩, hne2⟩
    · exact Or.inl hle
    · exact Or.inr ⟨he, lt_of_le_of_ne hle hne2⟩

/-- C7: the strict price-time priority invariant of every (category, side)
book list is established by every insert (append a freshly timestamped entry,
then re-sort) and preserved by every remove (filter), under the monotonic
clock of the spec (pairwise distinct timestamps, fresh insertion time). -/
theorem book_priority_invariant (ob : OrderBook) (hinv : BookInvariant ob)
    (hdist : BookDistinct ob) :
    (∀ o now, FreshTime ob now → BookInvariant (ob.add_order o now).2) ∧
      (∀ energy_type side oid, BookInvariant (ob.remove_order energy_type side oid).2) := by
  constructor
  · intro o now hfresh
    cases hp : parseCat o.energy_type with
    | none => simpa [OrderBook.add_order, hp] using hinv
    | some c0 =>
      simp only [OrderBook.add_order, hp]
      intro c s
      show StrictPriority s (updateBooks ob.books c0 o.order_type _ c s)
      unfold updateBooks
      by_cases he : c = c0 ∧ s = o.order_type
      · rw [if_pos he]
        rcases he with ⟨rfl, rfl⟩
        apply sort_book_strict
        refine List.pairwise_append.mpr ⟨hdist _ _, List.pairwise_singleton _ _, ?_⟩
        intro a ha b hb
        simp only [List.mem_singleton] at hb
        subst hb
        exact hfresh _ _ a ha
      · rw [if_neg he]
        exact hinv c s
  · intro energy_type side oid
    cases hp : parseCat energy_type with
    | none => simpa [OrderBook.remove_order, hp] using hinv
    | some c0 =>
      simp only [OrderBook.remove_order, hp]
      intro c s
      show StrictPriority s (updateBooks ob.books c0 side _ c s)
      unfold updateBooks
      by_cases he : c = c0 ∧ s = side
      · rw [if_pos he]
        rcases he with ⟨rfl, rfl⟩
        exact (hinv _ _).sublist (List.filter_sublist _)
      · rw [if_neg he]
        exact hinv c s

/-- Witness for C7: inserting into the empty book at time 1 yields a
strictly prioritized solar buy list. -/
theorem book_priority_invariant_witness :
    StrictPriority Side.buy
      (((OrderBook.init.add_order ⟨"o1", "solar", Side.buy, 12/100, 100, "u1"⟩ 1).2).books
        EnergyCat.solar Side.buy) :=
  (book_priority_invariant OrderBook.init (fun _ _ => List.Pairwise.nil)
      (fun _ _ => List.Pairwise.nil)).1
    ⟨"o1", "solar", Side.buy, 12/100, 100, "u1"⟩ 1
    (fun _ _ e he => absurd he (List.not_mem_nil e)) EnergyCat.solar Side.buy

/-- C8: `verify` is idempotent — the repeated call returns the same boolean
and leaves the state unchanged, and the repeat is answered from the cache
entry stored under the `contract_id:transaction_hash` key. -/
theorem verify_idempotent (digest : PyStr → PyStr) (s : VerificationService)
    (cid th : PyStr) :
    VerificationService.verify digest (VerificationService.verify digest s cid th).2 cid th
        = VerificationService.verify digest s cid th ∧
      (VerificationService.verify digest s cid th).2.verification_cache.lookup (vKey cid th)
        = some (VerificationService.verify digest s cid th).1 := by
  unfold VerificationService.verify
  cases h : s.verification_cache.lookup (vKey cid th) with
  | some b => simp [h]
  | none => simp [h, List.lookup]

/-- C9: the stored `transaction_hash` always equals the digest of the
defining fields: it is computed that way at construction, it is untouched by
deploy, execute, fail and verify, and it survives a `to_dict` / `from_dict`
round trip. -/
theorem txhash_stable (H : String → String) :
    (∀ buyer seller etype qty price cid fid st created now,
        SmartContract.hashOK H
          (SmartContract.make H buyer seller etype qty price cid fid st created now)) ∧
      (∀ c now, SmartContract.hashOK H c →
        SmartContract.hashOK H (SmartContract.deploy c now).2) ∧
      (∀ c now et g, SmartContract.hashOK H c →
        SmartContract.hashOK H (SmartContract.execute c now et g)) ∧
      (∀ c r, SmartContract.hashOK H c → SmartContract.hashOK H (SmartContract.fail c r)) ∧
      (∀ c, SmartContract.hashOK H c →
        SmartContract.hashOK H (SmartContract.verify c).2) ∧
      (∀ c fid now, SmartContract.hashOK H c →
        SmartContract.hashOK H (SmartContract.from_dict H (SmartContract.to_dict c) fid now)) := by
  refine ⟨fun buyer seller etype qty price cid fid st created now => rfl,
    fun c now h => h, fun c now et g h => h, fun c r h => h, ?_, fun c fid now h => h⟩
  intro c h
  unfold SmartContract.verify
  split
  · exact h
  · exact h

/-- Witness for C9: a freshly built contract, then deployed, with the
identity digest. -/
theorem txhash_stable_witness :
    SmartContract.hashOK (fun z => z)
      ((SmartContract.deploy
        (SmartContract.make (fun z => z) "b" "s" "solar" 100 (11/100) none "c1"
          CStatus.pending none 3) 7).2) :=
  (txhash_stable (fun z => z)).2.1
    (SmartContract.make (fun z => z) "b" "s" "solar" 100 (11/100) none "c1"
      CStatus.pending none 3) 7 rfl

/-- The integrity check always accepts the digest of the id itself: the
compared prefix is a prefix of the submitted hash by construction. -/
theorem verify_hash_integrity_self (digest : PyStr → PyStr) (cid : PyStr) :
    verify_hash_integrity digest cid (digest cid) = true := by
  unfold verify_hash_integrity
  rw [List.take_take]
  rw [ List.isPrefixOf_iff_prefix]
  exact List.take_prefix _ _

/-- A `verify` call on the digest of the id returns `true` and keeps every
cached value `true`. -/
theorem verify_true_of_cacheAllTrue (digest : PyStr → PyStr) (s : VerificationService)
    (hs : CacheAllTrue s) (cid : PyStr) :
    (VerificationService.verify digest s cid (digest cid)).1 = true ∧
      CacheAllTrue (VerificationService.verify digest s cid (digest cid)).2 := by
  unfold VerificationService.verify
  cases h : s.verification_cache.lookup (vKey cid (digest cid)) with
  | some b => exact ⟨hs _ _ h, by simpa using hs⟩
  | none =>
    refine ⟨by simp [verify_hash_integrity_self], ?_⟩
    intro k b hkb
    by_cases hk : (k == vKey cid (digest cid)) = true
    · simp only [List.lookup, hk] at hkb
      cases hkb
      exact verify_hash_integrity_self digest cid
    · simp only [List.lookup, hk] at hkb
      exact hs _ _ hkb

/-- Batch verification starting from an all-true cache reports every id as
verified, in input order. -/
theorem batch_verify_go (digest : PyStr → PyStr) :
    ∀ (ids : List PyStr) (s : VerificationService), CacheAllTrue s →
      (VerificationService.batch_verify digest s ids).1
        = ids.map (fun cid => (cid, true)) := by
  intro ids
  induction ids with
  | nil => intro s _; rfl
  | cons cid rest ih =>
    intro s hs
    have h := verify_true_of_cacheAllTrue digest s hs cid
    unfold VerificationService.batch_verify
    simp [h.1, ih _ h.2]

/-- C10: `batch_verify` on a fresh service returns exactly one result per
contract id, in input order, and every result reports `verified = true`: the
submitted hash is derived from the id by the same digest the integrity check
recomputes, so the 4-character prefix comparison always succeeds. -/
theorem batch_verify_all_verified (digest : PyStr → PyStr) (ids : List PyStr) :
    (VerificationService.batch_verify digest VerificationService.init ids).1
      = ids.map (fun cid => (cid, true)) :=
  batch_verify_go digest ids VerificationService.init (fun _ _ h => nomatch h)

end EcoFlux
